import Mathlib

/-!
Verification development for `TLCAttendance.py`: a shallow embedding in Lean 4
of the program's configuration resolution, roster loading, login sequencing and
attendance-marking loop, together with theorems settling the specification's
claims about them.

The browser, the web portal and the spreadsheet library are the program's
environment; they are modelled as explicit data (a `Workbook`, a `PortalEnv`,
a DOM page given as an association list from XPath queries to checkbox values)
passed to the embedded functions.  Side effects (prompts, console prints,
clicks) are made observable as explicit traces of events.
-/

namespace TLC

/-! ### Roster loading (`TLCAttendance.loadAttendanceData`)

A workbook is modelled by its sheets; each sheet is reduced to its column `A`,
the only data the program reads.  A cell value is `Option String`: `none` is an
empty cell (Python `None` from `col.value`).  `sheet['A']` in openpyxl
enumerates every cell of column `A` from row 1 down to the sheet's last
occupied row, empty cells included, so the model keeps those `none` entries. -/
/-- One worksheet, reduced to the cells of column `A` in top-to-bottom order. -/
structure Workbook where
  sheets : List (String × List (Option String))
deriving Repr, DecidableEq

/-- Model of `workBook.sheetnames` from openpyxl. -/
def Workbook.sheetnames (wb : Workbook) : List String :=
  wb.sheets.map (fun p => p.1)

/-- Result of `loadAttendanceData`: the new `self.attendees`, whether the
`ERROR: Sheet ... not found` message was printed, and the returned count. -/
structure LoadResult where
  attendees : List (Option String)
  errorPrinted : Bool
  result : Nat
deriving Repr, DecidableEq

/-- Model of `TLCAttendance.loadAttendanceData`.

```python
self.attendees = []
workBook = load_workbook(self.args.filename)
if self.sheetName in workBook.sheetnames:
    attendanceSheet = workBook[self.sheetName]
    for col in attendanceSheet['A']:
        self.attendees.append(col.value)
    workBook.close()
else:
    print(f'ERROR: Sheet ... not found ...')
return len(self.attendees)
```

`prev` is the value of `self.attendees` before the call; the first line resets
it to `[]`, which is why `prev` does not occur in the body.  The append loop is
kept as a left fold appending one cell value at a time. -/
def loadAttendanceData (wb : Workbook) (sheetName : String)
    (prev : List (Option String)) : LoadResult :=
  let _ := prev
  let attendees0 : List (Option String) := []
  match wb.sheets.find? (fun p => p.1 == sheetName) with
  | some sheet =>
      let attendees := sheet.2.foldl (fun acc c => acc ++ [c]) attendees0
      { attendees := attendees, errorPrinted := false, result := attendees.length }
  | none =>
      { attendees := attendees0, errorPrinted := true, result := attendees0.length }

/-- Number of non-empty cells in a column. -/
def countNonEmpty (col : List (Option String)) : Nat :=
  (col.filter (fun c => c.isSome)).length

/-! ### Attendance marking (`TLCAttendance.recordAttendance`, lines 201-227)

The DOM is modelled as an association list from XPath query strings to the
`value` attribute of the input element the query finds; a missing entry models
`find_element` raising `NoSuchElementException`.  The loop's side effects are
recorded as a trace of events; `lookupE` carries both the element id that was
built and the XPath query used to locate it.  The `firefoxBrowser` flag is the
result of the `'firefox' in self.driver.capabilities['browserName']` test. -/
/-- Observable events of the marking loop. -/
inductive MEvent where
  | lookupE (cboxId xpath : String)
  | notFound (cboxId xpath : String)
  | scrollE (cboxId : String)
  | clickE (cboxId : String)
  | skipE (cboxId : String)
  | summary (count total : Nat)
deriving Repr, DecidableEq

/-- Source line 206: `endStr = 'attended'`. -/
def endStr : String := "attended"

/-- Source line 207: `attendeeCboxId = f'{attendee}-{selectedEventValue}-{endStr}'`. -/
def attendeeCboxId (attendee selectedEventValue : String) : String :=
  attendee ++ "-" ++ selectedEventValue ++ "-" ++ endStr

/-- Source line 208: `attendeeXPath = f"//input[@id = '{attendeeCboxId}']"`. -/
def attendeeXPath (cboxId : String) : String :=
  "//input[@id = \x27" ++ cboxId ++ "\x27]"

/-- Model of `driver.find_element(By.XPATH, xpath)` followed by reading the element's
`value` attribute; `none` models `NoSuchElementException`. -/
def domFind (page : List (String × String)) (xpath : String) : Option String :=
  (page.find? (fun p => p.1 == xpath)).map (fun p => p.2)

/-- The events one loop iteration produces for `attendee` (lines 204-226):
build the id and XPath, look the element up; on failure the exception event;
otherwise, if the checkbox value is `'0'`, scroll (Firefox only) and click the
parent via the action chain, else skip. -/
def stepEvents (page : List (String × String)) (selectedEventValue : String)
    (firefoxBrowser : Bool) (attendee : String) : List MEvent :=
  let cid := attendeeCboxId attendee selectedEventValue
  let xp := attendeeXPath cid
  match domFind page xp with
  | none => [MEvent.lookupE cid xp, MEvent.notFound cid xp]
  | some v =>
      if v == "0" then
        (if firefoxBrowser then
          [MEvent.lookupE cid xp, MEvent.scrollE cid, MEvent.clickE cid]
        else
          [MEvent.lookupE cid xp, MEvent.clickE cid])
      else
        [MEvent.lookupE cid xp, MEvent.skipE cid]

/-- The `for attendee in self.attendees` loop (lines 202-227).  `count` is
`attendeeCount`, incremented at the top of each iteration; `total` is
`len(self.attendees)`.  The boolean result is `true` when the loop ran to
completion (the summary print of line 227 executed) and `false` when a lookup
failure aborted it — `find_element` raises, the exception propagates, and no
later iteration or summary runs. -/
def markLoopAux (page : List (String × String)) (selectedEventValue : String)
    (firefoxBrowser : Bool) (total : Nat) :
    Nat → List String → List MEvent × Bool
  | count, [] => ([MEvent.summary count total], true)
  | count, attendee :: rest =>
      let cid := attendeeCboxId attendee selectedEventValue
      let xp := attendeeXPath cid
      match domFind page xp with
      | none => ([MEvent.lookupE cid xp, MEvent.notFound cid xp], false)
      | some v =>
          let stepEvs :=
            if v == "0" then
              (if firefoxBrowser then
                [MEvent.lookupE cid xp, MEvent.scrollE cid, MEvent.clickE cid]
              else
                [MEvent.lookupE cid xp, MEvent.clickE cid])
            else
              [MEvent.lookupE cid xp, MEvent.skipE cid]
          let restRes :=
            markLoopAux page selectedEventValue firefoxBrowser total (count + 1) rest
          (stepEvs ++ restRes.1, restRes.2)

/-- The per-attendee part of `recordAttendance`: run the marking loop over the
roster, with `attendeeCount` starting at 0 and the summary reporting
`len(self.attendees)`. -/
def recordAttendanceLoop (page : List (String × String))
    (selectedEventValue : String) (firefoxBrowser : Bool)
    (attendees : List String) : List MEvent × Bool :=
  markLoopAux page selectedEventValue firefoxBrowser attendees.length 0 attendees

/-- A concrete DOM page for witnesses: checkboxes for `A1` and `A2` under
event value `7`, `A1` unset and `A2` already set; no element for `A3`. -/
def pageW : List (String × String) :=
  [(attendeeXPath (attendeeCboxId "A1" "7"), "0"),
   (attendeeXPath (attendeeCboxId "A2" "7"), "1")]

/-- A workbook whose `Attendance` sheet has a gap in column `A`: cells
`A1 = "A1"`, `A2` empty, `A3 = "A2"` (possible when another column occupies
row 3, or when `A2` was cleared but `A3` filled): two non-empty cells, three
cells enumerated by `sheet['A']`. -/
def wbGap : Workbook :=
  { sheets := [("Attendance", [some "A1", none, some "A2"])] }

/-- A small regular workbook: every cell of column `A` non-empty. -/
def wbSmall : Workbook :=
  { sheets := [("Attendance", [some "Name", some "A1", some "A2"])] }

/-- A workbook without the configured sheet. -/
def wbNoSheet : Workbook :=
  { sheets := [("Sheet1", [some "x"])] }

/-! ### Login and the main sequence (`TLCAttendance.login`, `main`)

The portal is the environment of `login`'s post-submit wait
(`waitLogin.until(EC.any_of(error_block_visible, url_to_be(DASHBOARD_URL)))`):
`waitOutcome = none` models the wait raising `TimeoutException` (neither
condition held within 10 seconds), `waitOutcome = some url` models the wait
returning with `driver.current_url == url` (so either the error block became
visible or the dashboard was reached).  Since the portal may in principle
behave differently on successive submissions, the loop model takes one
`PortalEnv` per iteration. -/
/-- Post-submit behaviour of the portal for one credential submission. -/
structure PortalEnv where
  waitOutcome : Option String
deriving Repr, DecidableEq

/-- The `while not loginComplete` loop of `login` (lines 127-147), with an
explicit fuel bound so that non-termination would be observable as `none`.
State: remaining fuel, the `loginComplete` flag, and the number of credential
submissions performed so far.  One iteration submits the password, clicks the
button, and waits: on `TimeoutException` the function returns `False`; if the
current URL is the dashboard it sets `loginComplete` (the loop then exits and
`True` is returned); otherwise it returns `False`.  The result is the returned
boolean paired with the number of iterations (submission attempts) run. -/
def loginLoopAux (dashboardURL : String) (envs : Nat → PortalEnv) :
    Nat → Bool → Nat → Option (Bool × Nat)
  | _, true, i => some (true, i)
  | 0, false, _ => none
  | fuel + 1, false, i =>
      match (envs i).waitOutcome with
      | none => some (false, i + 1)
      | some url =>
          if url == dashboardURL then
            loginLoopAux dashboardURL envs fuel true (i + 1)
          else
            some (false, i + 1)

/-- High-level actions of `main` and `login`, in execution order. -/
inductive Action where
  | loadRoster
  | createSession
  | submitCredentials
  | printLoginFailure
  | record
  | logoutAction
  | printNoData
deriving Repr, DecidableEq

/-- Model of `TLCAttendance.login` (lines 117-147) as result plus action trace: create
the driver (`getDriver`), fill the form and submit once, then wait.  Timeout
or a non-dashboard URL prints an `ERROR:` line and returns `False`; the
dashboard URL returns `True`. -/
def login (dashboardURL : String) (env : PortalEnv) : Bool × List Action :=
  let pre := [Action.createSession, Action.submitCredentials]
  match env.waitOutcome with
  | none => (false, pre ++ [Action.printLoginFailure])
  | some url =>
      if url == dashboardURL then (true, pre)
      else (false, pre ++ [Action.printLoginFailure])

/-- Environment of one whole run of `main`: the spreadsheet, the configured
sheet name, the dashboard URL derived from the configured server, and the
portal's post-submit behaviour. -/
structure RunEnv where
  workbook : Workbook
  sheetName : String
  dashboardURL : String
  portal : PortalEnv
deriving Repr, DecidableEq

/-- Model of `main` (lines 230-255) as an action trace: load the roster; if the count
is zero print the error and return; otherwise run `login`, and only when it
returned `True` reload the roster, record attendance and log out. -/
def mainTrace (env : RunEnv) : List Action :=
  let l1 := loadAttendanceData env.workbook env.sheetName []
  if l1.result == 0 then
    [Action.loadRoster, Action.printNoData]
  else
    let lr := login env.dashboardURL env.portal
    if lr.1 then
      Action.loadRoster :: lr.2 ++ [Action.loadRoster, Action.record, Action.logoutAction]
    else
      Action.loadRoster :: lr.2

/-- Dashboard URL for concrete runs, as `setURLs` builds it from the default
server value. -/
def dashW : String := "https://www.traillifeconnect.com/dashboard"

/-- A run whose portal redirects to the dashboard after submission. -/
def envLoginOk : RunEnv :=
  { workbook := wbSmall, sheetName := "Attendance", dashboardURL := dashW,
    portal := { waitOutcome := some dashW } }

/-- A run whose portal leaves the browser on the login page (error block
shown) after submission. -/
def envLoginStuck : RunEnv :=
  { workbook := wbSmall, sheetName := "Attendance", dashboardURL := dashW,
    portal := { waitOutcome := some "https://www.traillifeconnect.com/login" } }

/-- A run whose post-submit wait times out. -/
def envLoginTimeout : RunEnv :=
  { workbook := wbSmall, sheetName := "Attendance", dashboardURL := dashW,
    portal := { waitOutcome := none } }

/-- A run whose workbook lacks the configured sheet, so the roster is empty. -/
def envNoData : RunEnv :=
  { workbook := wbNoSheet, sheetName := "Attendance", dashboardURL := dashW,
    portal := { waitOutcome := some dashW } }

/-! ### Configuration resolution (`readConfigItem`, `readConfig`, lines 51-92)

A `configparser` state is its `DEFAULT` section plus the named sections, each
an ordered key/value list (`config.write` emits exactly these: the defaults
under `[DEFAULT]` and each section's own pairs).  Key lookup through a section
proxy (`fieldName in self.config[section]`, `self.config[section][fieldName]`)
falls back to the `DEFAULT` section, as `configparser` does; assignment goes
to the section's own dict.  The operator's answers are an `inputs` function
from (section, field) to the entered text, `none` standing for an empty entry
(`input(promptStr) or None`). -/
/-- A `configparser` state: the `DEFAULT` section and the named sections. -/
structure Config where
  defaults : List (String × String)
  sections : List (String × List (String × String))
deriving Repr, DecidableEq

/-- Lookup in one key/value list. -/
def lookupKV (kvs : List (String × String)) (k : String) : Option String :=
  (kvs.find? (fun p => p.1 == k)).map (fun p => p.2)

/-- Set a key in one key/value list: overwrite in place or append. -/
def setKV : List (String × String) → String → String → List (String × String)
  | [], k, v => [(k, v)]
  | p :: rest, k, v =>
      if p.1 == k then (p.1, v) :: rest else p :: setKV rest k v

/-- Set a key inside a named section, appending the section if absent. -/
def setSection :
    List (String × List (String × String)) → String → String → String →
      List (String × List (String × String))
  | [], s, k, v => [(s, [(k, v)])]
  | p :: rest, s, k, v =>
      if p.1 == s then (p.1, setKV p.2 k v) :: rest else p :: setSection rest s k v

/-- The pairs physically stored under section `s` (what `config.write` emits
for it). -/
def ownPairs (cfg : Config) (s : String) : List (String × String) :=
  if s == "DEFAULT" then cfg.defaults
  else (((cfg.sections.find? (fun p => p.1 == s)).map (fun p => p.2)).getD [])

/-- Lookup `self.config[section][fieldName]` through a section proxy: the section's
own pairs first, then the `DEFAULT` fallback. -/
def getValue (cfg : Config) (s k : String) : Option String :=
  if s == "DEFAULT" then lookupKV cfg.defaults k
  else
    match lookupKV (ownPairs cfg s) k with
    | some v => some v
    | none => lookupKV cfg.defaults k

/-- Test `fieldName in self.config[section]`. -/
def hasKey (cfg : Config) (s k : String) : Bool :=
  (getValue cfg s k).isSome

/-- Lines 53-54: `if section not in self.config: self.config[section] = {}`.
`DEFAULT` always counts as present. -/
def ensureSection (cfg : Config) (s : String) : Config :=
  if s == "DEFAULT" || cfg.sections.any (fun p => p.1 == s) then cfg
  else { cfg with sections := cfg.sections ++ [(s, [])] }

/-- Line 64: `self.config[section][fieldName] = value`: assignment through
the proxy goes to the section's own dict (the defaults dict for `DEFAULT`). -/
def setValue (cfg : Config) (s k v : String) : Config :=
  if s == "DEFAULT" then { cfg with defaults := setKV cfg.defaults k v }
  else { cfg with sections := setSection cfg.sections s k v }

/-- Mutable state `readConfigItem` threads: the parser, `self.configChanged`,
and the trace of prompts issued (identified by section and field; the prompt
text itself carries no information the claims need). -/
structure RCState where
  config : Config
  configChanged : Bool
  prompts : List (String × String)
deriving Repr, DecidableEq

/-- Model of `TLCAttendance.readConfigItem` (lines 51-66): add the section if missing;
if the field is not visible in the section (own pairs or defaults), prompt,
fall back to `defaultValue` on empty input, store the value and set
`configChanged`; finally bind the resolved value (`setattr`), returned here as
the second component. -/
def readConfigItem (inputs : String → String → Option String) (st : RCState)
    (sect fieldName defaultValue : String) : RCState × String :=
  let cfg := ensureSection st.config sect
  match getValue cfg sect fieldName with
  | some v => ({ st with config := cfg }, v)
  | none =>
      let value := (inputs sect fieldName).getD defaultValue
      ({ config := setValue cfg sect fieldName value,
         configChanged := true,
         prompts := st.prompts ++ [(sect, fieldName)] }, value)

/-- Outcome of `readConfig`: the final parser state (what is written to disk
when `fileWritten`), whether the file is rewritten (`self.configChanged` at
line 89), the prompts issued, and the five resolved settings. -/
structure ConfigResult where
  config : Config
  fileWritten : Bool
  prompts : List (String × String)
  server : String
  browser : String
  sheetName : String
  email : String
  initial_wait_secs : String
deriving Repr, DecidableEq

/-- Model of `TLCAttendance.readConfig` (lines 69-92): reset `configChanged`, resolve
`server`, `browser`, `sheetName` against `DEFAULT` and `email`,
`initial_wait_secs` against the section named by the resolved server, then
rewrite the file exactly when `configChanged` is set.  (`setURLs` at line 77
only derives URL strings and touches no configuration.) -/
def readConfig (inputs : String → String → Option String) (cfg0 : Config) :
    ConfigResult :=
  let st0 : RCState := { config := cfg0, configChanged := false, prompts := [] }
  let r1 := readConfigItem inputs st0 "DEFAULT" "server" "www.traillifeconnect.com"
  let r2 := readConfigItem inputs r1.1 "DEFAULT" "browser" "Firefox"
  let r3 := readConfigItem inputs r2.1 "DEFAULT" "sheetName" "Attendance"
  let r4 := readConfigItem inputs r3.1 r1.2 "email" "user@example.com"
  let r5 := readConfigItem inputs r4.1 r1.2 "initial_wait_secs" "30"
  { config := r5.1.config, fileWritten := r5.1.configChanged,
    prompts := r5.1.prompts, server := r1.2, browser := r2.2,
    sheetName := r3.2, email := r4.2, initial_wait_secs := r5.2 }

/-- The five recognized keys in resolution order, the last two under the
section named by the resolved server. -/
def recognizedKeys (server : String) : List (String × String) :=
  [("DEFAULT", "server"), ("DEFAULT", "browser"), ("DEFAULT", "sheetName"),
   (server, "email"), (server, "initial_wait_secs")]

/-- Resolution step 1 of `readConfig`: `server` against `DEFAULT`. -/
abbrev rcStep1 (inputs : String → String → Option String) (cfg0 : Config) :
    RCState × String :=
  readConfigItem inputs { config := cfg0, configChanged := false, prompts := [] }
    "DEFAULT" "server" "www.traillifeconnect.com"

/-- Resolution step 2: `browser` against `DEFAULT`. -/
abbrev rcStep2 (inputs : String → String → Option String) (cfg0 : Config) :
    RCState × String :=
  readConfigItem inputs (rcStep1 inputs cfg0).1 "DEFAULT" "browser" "Firefox"

/-- Resolution step 3: `sheetName` against `DEFAULT`. -/
abbrev rcStep3 (inputs : String → String → Option String) (cfg0 : Config) :
    RCState × String :=
  readConfigItem inputs (rcStep2 inputs cfg0).1 "DEFAULT" "sheetName" "Attendance"

/-- Resolution step 4: `email` against the section named by the resolved
server. -/
abbrev rcStep4 (inputs : String → String → Option String) (cfg0 : Config) :
    RCState × String :=
  readConfigItem inputs (rcStep3 inputs cfg0).1 (rcStep1 inputs cfg0).2
    "email" "user@example.com"

/-- Resolution step 5: `initial_wait_secs` against the server section. -/
abbrev rcStep5 (inputs : String → String → Option String) (cfg0 : Config) :
    RCState × String :=
  readConfigItem inputs (rcStep4 inputs cfg0).1 (rcStep1 inputs cfg0).2
    "initial_wait_secs" "30"

/-- A concrete config file for witnesses: `server` and `browser` present in
`DEFAULT`; `sheetName`, `email` and `initial_wait_secs` missing. -/
def cfgW : Config :=
  { defaults := [("server", "www.traillifeconnect.com"), ("browser", "Firefox")],
    sections := [] }

/-- An operator who answers every prompt with an empty line, so every prompted
key resolves to its default. -/
def inputsW : String → String → Option String := fun _ _ => none

end TLC

namespace TLC

theorem foldl_append_eq (col acc : List (Option String)) :
    col.foldl (fun a c => a ++ [c]) acc = acc ++ col := by
  induction col generalizing acc with
  | nil => simp
  | cons c rest ih => simp [List.foldl_cons, ih]

/-- Unfolding of `loadAttendanceData` on a workbook containing the sheet. -/
theorem loadAttendanceData_found (wb : Workbook) (sheetName : String)
    (prev col : List (Option String))
    (h : wb.sheets.find? (fun p => p.1 == sheetName) = some (sheetName, col)) :
    loadAttendanceData wb sheetName prev =
      { attendees := col, errorPrinted := false, result := col.length } := by
  simp [loadAttendanceData, h, foldl_append_eq]

/-- Unfolding of `loadAttendanceData` on a workbook lacking the sheet. -/
theorem loadAttendanceData_notFound (wb : Workbook) (sheetName : String)
    (prev : List (Option String))
    (h : wb.sheets.find? (fun p => p.1 == sheetName) = none) :
    loadAttendanceData wb sheetName prev =
      { attendees := [], errorPrinted := true, result := 0 } := by
  simp [loadAttendanceData, h]

theorem find?_eq_none_of_not_mem_sheetnames (wb : Workbook) (sheetName : String)
    (h : sheetName ∉ wb.sheetnames) :
    wb.sheets.find? (fun p => p.1 == sheetName) = none := by
  rw [List.find?_eq_none]
  intro p hp hb
  have hpe : p.1 = sheetName := by simpa using hb
  exact h (by
    simp only [Workbook.sheetnames, List.mem_map]
    exact ⟨p, hp, hpe⟩)

theorem stepEvents_of_found (page : List (String × String)) (ev : String)
    (ff : Bool) (a v : String)
    (h : domFind page (attendeeXPath (attendeeCboxId a ev)) = some v) :
    stepEvents page ev ff a =
      (if v == "0" then
        (if ff then
          [MEvent.lookupE (attendeeCboxId a ev) (attendeeXPath (attendeeCboxId a ev)),
           MEvent.scrollE (attendeeCboxId a ev), MEvent.clickE (attendeeCboxId a ev)]
        else
          [MEvent.lookupE (attendeeCboxId a ev) (attendeeXPath (attendeeCboxId a ev)),
           MEvent.clickE (attendeeCboxId a ev)])
      else
        [MEvent.lookupE (attendeeCboxId a ev) (attendeeXPath (attendeeCboxId a ev)),
         MEvent.skipE (attendeeCboxId a ev)]) := by
  simp only [stepEvents, h]

theorem summary_not_mem_stepEvents (page : List (String × String)) (ev : String)
    (ff : Bool) (a : String) (c t : Nat) :
    MEvent.summary c t ∉ stepEvents page ev ff a := by
  simp only [stepEvents]
  cases domFind page (attendeeXPath (attendeeCboxId a ev)) with
  | none => simp
  | some v =>
      by_cases hv : v == "0" <;> cases ff <;> simp [hv]

/-- If the lookups for the first `i` roster entries succeed and the lookup for
entry `i` fails, the loop trace is exactly the events of those first `i`
entries followed by the failing lookup, and the loop does not complete. -/
theorem markLoopAux_abort (page : List (String × String)) (ev : String)
    (ff : Bool) (total : Nat) :
    ∀ (i : Nat) (attendees : List String) (count : Nat) (hi : i < attendees.length),
      (∀ j (hj : j < i),
        (domFind page (attendeeXPath (attendeeCboxId
          (attendees.get ⟨j, Nat.lt_trans hj hi⟩) ev))).isSome = true) →
      domFind page (attendeeXPath (attendeeCboxId (attendees.get ⟨i, hi⟩) ev)) = none →
      markLoopAux page ev ff total count attendees =
        (((attendees.take i).map (stepEvents page ev ff)).flatten ++
          [MEvent.lookupE (attendeeCboxId (attendees.get ⟨i, hi⟩) ev)
             (attendeeXPath (attendeeCboxId (attendees.get ⟨i, hi⟩) ev)),
           MEvent.notFound (attendeeCboxId (attendees.get ⟨i, hi⟩) ev)
             (attendeeXPath (attendeeCboxId (attendees.get ⟨i, hi⟩) ev))], false) := by
  intro i
  induction i with
  | zero =>
      intro attendees count hi hpre hfail
      match attendees, hi with
      | a :: rest, _ =>
          simp only [List.get] at hfail
          simp [markLoopAux, hfail]
  | succ i ih =>
      intro attendees count hi hpre hfail
      match attendees, hi with
      | a :: rest, hi =>
          have h0 := hpre 0 (Nat.zero_lt_succ i)
          simp only [List.get] at h0
          obtain ⟨v, hv⟩ := Option.isSome_iff_exists.mp h0
          have hresti : i < rest.length := Nat.lt_of_succ_lt_succ hi
          have hpre' : ∀ j (hj : j < i),
              (domFind page (attendeeXPath (attendeeCboxId
                (rest.get ⟨j, Nat.lt_trans hj hresti⟩) ev))).isSome = true := by
            intro j hj
            have := hpre (j + 1) (Nat.succ_lt_succ hj)
            simpa using this
          have hfail' : domFind page
              (attendeeXPath (attendeeCboxId (rest.get ⟨i, hresti⟩) ev)) = none := by
            simpa using hfail
          have hrec := ih rest (count + 1) hresti hpre' hfail'
          simp only [markLoopAux, hv, hrec]
          rw [← stepEvents_of_found page ev ff a v hv]
          simp [List.get, List.append_assoc]

end TLC

/-- Claim C4, counterexample: on a workbook whose `Attendance` sheet holds
N = 2 non-empty cells in column `A` but an empty cell between them, the code
appends every cell value of `sheet['A']` (the empty one included, as `None`),
so the roster has length 3 ≠ N and 3 is returned — the claim's "roster of
length exactly N" fails. -/
theorem claim_C4_counterexample :
    TLC.countNonEmpty [some "A1", none, some "A2"] = 2 ∧
    (TLC.loadAttendanceData TLC.wbGap "Attendance" []).attendees =
      [some "A1", none, some "A2"] ∧
    (TLC.loadAttendanceData TLC.wbGap "Attendance" []).result = 3 ∧
    ¬ (TLC.loadAttendanceData TLC.wbGap "Attendance" []).attendees.length =
        TLC.countNonEmpty [some "A1", none, some "A2"] := by
  decide

/-- Claim C4 (amended): for every workbook containing the configured sheet,
roster loading produces exactly the cells of column `A` in top-to-bottom file
order with no filtering (a header-like first cell, and even empty cells inside
the enumerated range, are included), and returns the roster length; in
particular, when every enumerated cell of the column is non-empty, the roster
length and the returned value equal N, the number of non-empty cells. -/
theorem claim_C4 (wb : TLC.Workbook) (sheetName : String)
    (prev col : List (Option String))
    (h : wb.sheets.find? (fun p => p.1 == sheetName) = some (sheetName, col)) :
    (TLC.loadAttendanceData wb sheetName prev).attendees = col ∧
    (TLC.loadAttendanceData wb sheetName prev).result = col.length ∧
    ((∀ c ∈ col, c.isSome) →
      (TLC.loadAttendanceData wb sheetName prev).result = TLC.countNonEmpty col) := by
  rw [TLC.loadAttendanceData_found wb sheetName prev col h]
  refine ⟨rfl, rfl, fun hall => ?_⟩
  simp only [TLC.countNonEmpty]
  rw [List.filter_eq_self.mpr (fun c hc => hall c hc)]

/-- Witness for C4 at a concrete workbook whose column `A` is fully non-empty:
the roster is the three cells in order and the count, 3, is returned and equals
the number of non-empty cells. -/
theorem claim_C4_witness :
    (TLC.loadAttendanceData TLC.wbSmall "Attendance" []).attendees =
      [some "Name", some "A1", some "A2"] ∧
    (TLC.loadAttendanceData TLC.wbSmall "Attendance" []).result = 3 ∧
    (TLC.loadAttendanceData TLC.wbSmall "Attendance" []).result =
      TLC.countNonEmpty [some "Name", some "A1", some "A2"] := by
  have h := claim_C4 TLC.wbSmall "Attendance" []
      [some "Name", some "A1", some "A2"] (by decide)
  exact ⟨h.1, h.2.1, h.2.2 (by decide)⟩

/-- Claim C5: on a workbook that has no sheet with the configured name, roster
loading prints the error, leaves the roster empty, and returns 0; the model is
a total function, so no exception path exists (the Python branch performs only
a `print`). -/
theorem claim_C5 (wb : TLC.Workbook) (sheetName : String)
    (prev : List (Option String))
    (h : sheetName ∉ wb.sheetnames) :
    TLC.loadAttendanceData wb sheetName prev =
      { attendees := [], errorPrinted := true, result := 0 } :=
  TLC.loadAttendanceData_notFound wb sheetName prev
    (TLC.find?_eq_none_of_not_mem_sheetnames wb sheetName h)

/-- Witness for C5 at a concrete workbook lacking the `Attendance` sheet. -/
theorem claim_C5_witness :
    TLC.loadAttendanceData TLC.wbNoSheet "Attendance" [some "stale"] =
      { attendees := [], errorPrinted := true, result := 0 } :=
  claim_C5 TLC.wbNoSheet "Attendance" [some "stale"] (by decide)

/-- Claim C10: roster loading resets `self.attendees` to `[]` before reading,
so re-loading from the roster produced by a first load (as `main` does around
login) returns exactly the first load's result — entries are never duplicated
by the second load. -/
theorem claim_C10 (wb : TLC.Workbook) (sheetName : String)
    (prev : List (Option String)) :
    TLC.loadAttendanceData wb sheetName
        (TLC.loadAttendanceData wb sheetName prev).attendees =
      TLC.loadAttendanceData wb sheetName prev := rfl

/-- Claim C2: if locating the checkbox element for the roster entry at
position `i` fails (no matching element on the page) while the earlier
entries' lookups succeed, the marking loop halts at that entry: the trace is
exactly the events of the first `i` entries followed by the failing lookup —
no entry after position `i` is looked up, clicked or otherwise processed —
the loop does not complete, and the end-of-loop summary is never printed. -/
theorem claim_C2 (page : List (String × String)) (ev : String) (ff : Bool)
    (attendees : List String) (i : Nat) (hi : i < attendees.length)
    (hpre : ∀ j (hj : j < i),
      (TLC.domFind page (TLC.attendeeXPath (TLC.attendeeCboxId
        (attendees.get ⟨j, Nat.lt_trans hj hi⟩) ev))).isSome = true)
    (hfail : TLC.domFind page
      (TLC.attendeeXPath (TLC.attendeeCboxId (attendees.get ⟨i, hi⟩) ev)) = none) :
    TLC.recordAttendanceLoop page ev ff attendees =
      (((attendees.take i).map (TLC.stepEvents page ev ff)).flatten ++
        [TLC.MEvent.lookupE (TLC.attendeeCboxId (attendees.get ⟨i, hi⟩) ev)
           (TLC.attendeeXPath (TLC.attendeeCboxId (attendees.get ⟨i, hi⟩) ev)),
         TLC.MEvent.notFound (TLC.attendeeCboxId (attendees.get ⟨i, hi⟩) ev)
           (TLC.attendeeXPath (TLC.attendeeCboxId (attendees.get ⟨i, hi⟩) ev))],
       false) ∧
    (∀ c t, TLC.MEvent.summary c t ∉ (TLC.recordAttendanceLoop page ev ff attendees).1) := by
  have habort := TLC.markLoopAux_abort page ev ff attendees.length i attendees 0 hi hpre hfail
  refine ⟨habort, fun c t hmem => ?_⟩
  rw [show TLC.recordAttendanceLoop page ev ff attendees = _ from habort] at hmem
  simp only [List.mem_append, List.mem_flatten, List.mem_map] at hmem
  rcases hmem with ⟨l, ⟨a, _, ha⟩, hl⟩ | hmem
  · exact TLC.summary_not_mem_stepEvents page ev ff a c t (ha ▸ hl)
  · simp at hmem

/-- Witness for C2: roster `["A1", "A2", "A3"]` against a page holding
checkboxes only for `A1` and `A2` under event value `7`: the loop aborts at
`A3` after processing `A1` and `A2`, and no summary event occurs. -/
theorem claim_C2_witness :
    TLC.recordAttendanceLoop TLC.pageW "7" true ["A1", "A2", "A3"] =
      (((["A1", "A2", "A3"].take 2).map (TLC.stepEvents TLC.pageW "7" true)).flatten ++
        [TLC.MEvent.lookupE (TLC.attendeeCboxId "A3" "7")
           (TLC.attendeeXPath (TLC.attendeeCboxId "A3" "7")),
         TLC.MEvent.notFound (TLC.attendeeCboxId "A3" "7")
           (TLC.attendeeXPath (TLC.attendeeCboxId "A3" "7"))],
       false) ∧
    (∀ c t, TLC.MEvent.summary c t ∉
      (TLC.recordAttendanceLoop TLC.pageW "7" true ["A1", "A2", "A3"]).1) :=
  claim_C2 TLC.pageW "7" true ["A1", "A2", "A3"] 2 (by decide)
    (by decide) (by decide)

/-- Claim C7: for an attendee whose checkbox reports a value other than `'0'`
(already set), the iteration performs no click and no scroll — its events are
just the lookup and the skip message — and the loop proceeds with the
remaining roster entries unchanged. -/
theorem claim_C7 (page : List (String × String)) (ev : String) (ff : Bool)
    (total count : Nat) (attendee : String) (rest : List String) (v : String)
    (hfind : TLC.domFind page
      (TLC.attendeeXPath (TLC.attendeeCboxId attendee ev)) = some v)
    (hv : v ≠ "0") :
    TLC.markLoopAux page ev ff total count (attendee :: rest) =
      (TLC.MEvent.lookupE (TLC.attendeeCboxId attendee ev)
          (TLC.attendeeXPath (TLC.attendeeCboxId attendee ev)) ::
        TLC.MEvent.skipE (TLC.attendeeCboxId attendee ev) ::
        (TLC.markLoopAux page ev ff total (count + 1) rest).1,
       (TLC.markLoopAux page ev ff total (count + 1) rest).2) ∧
    TLC.MEvent.clickE (TLC.attendeeCboxId attendee ev) ∉
      [TLC.MEvent.lookupE (TLC.attendeeCboxId attendee ev)
          (TLC.attendeeXPath (TLC.attendeeCboxId attendee ev)),
       TLC.MEvent.skipE (TLC.attendeeCboxId attendee ev)] ∧
    TLC.MEvent.scrollE (TLC.attendeeCboxId attendee ev) ∉
      [TLC.MEvent.lookupE (TLC.attendeeCboxId attendee ev)
          (TLC.attendeeXPath (TLC.attendeeCboxId attendee ev)),
       TLC.MEvent.skipE (TLC.attendeeCboxId attendee ev)] := by
  have hbe : (v == "0") = false := by
    simpa using hv
  refine ⟨?_, by simp, by simp⟩
  simp only [TLC.markLoopAux, hfind, hbe]
  simp

/-- Witness for C7 at attendee `A2` on the concrete page, whose checkbox value
is `'1'`: the iteration emits lookup and skip only, then recurses on `[]`. -/
theorem claim_C7_witness :
    TLC.markLoopAux TLC.pageW "7" false 2 1 ["A2"] =
      (TLC.MEvent.lookupE (TLC.attendeeCboxId "A2" "7")
          (TLC.attendeeXPath (TLC.attendeeCboxId "A2" "7")) ::
        TLC.MEvent.skipE (TLC.attendeeCboxId "A2" "7") ::
        (TLC.markLoopAux TLC.pageW "7" false 2 2 []).1,
       (TLC.markLoopAux TLC.pageW "7" false 2 2 []).2) ∧
    TLC.MEvent.clickE (TLC.attendeeCboxId "A2" "7") ∉
      [TLC.MEvent.lookupE (TLC.attendeeCboxId "A2" "7")
          (TLC.attendeeXPath (TLC.attendeeCboxId "A2" "7")),
       TLC.MEvent.skipE (TLC.attendeeCboxId "A2" "7")] ∧
    TLC.MEvent.scrollE (TLC.attendeeCboxId "A2" "7") ∉
      [TLC.MEvent.lookupE (TLC.attendeeCboxId "A2" "7")
          (TLC.attendeeXPath (TLC.attendeeCboxId "A2" "7")),
       TLC.MEvent.skipE (TLC.attendeeCboxId "A2" "7")] :=
  claim_C7 TLC.pageW "7" false 2 1 "A2" [] "1" (by decide) (by decide)

/-- Claim C8: the element identifier the loop looks up for attendee `a` under
resolved event value `v` is exactly `a ++ "-" ++ v ++ "-attended"`, the XPath
query is built from precisely that identifier, and the first event of every
iteration is the lookup by that identifier and XPath. -/
theorem claim_C8 (page : List (String × String)) (ev : String) (ff : Bool)
    (total count : Nat) (attendee : String) (rest : List String) :
    TLC.attendeeCboxId attendee ev = attendee ++ "-" ++ ev ++ "-attended" ∧
    TLC.attendeeXPath (TLC.attendeeCboxId attendee ev) =
      "//input[@id = \x27" ++ TLC.attendeeCboxId attendee ev ++ "\x27]" ∧
    (TLC.markLoopAux page ev ff total count (attendee :: rest)).1.head? =
      some (TLC.MEvent.lookupE (TLC.attendeeCboxId attendee ev)
        (TLC.attendeeXPath (TLC.attendeeCboxId attendee ev))) := by
  refine ⟨?_, rfl, ?_⟩
  · rw [TLC.attendeeCboxId, TLC.endStr, String.append_assoc]
    have h1 : ("-" : String) ++ "attended" = "-attended" := by decide
    rw [h1]
  · simp only [TLC.markLoopAux]
    cases hd : TLC.domFind page (TLC.attendeeXPath (TLC.attendeeCboxId attendee ev)) with
    | none => simp
    | some v => by_cases hv : v == "0" <;> cases ff <;> simp [hv]

namespace TLC

/-- The direct model of `login` agrees with the fuelled loop: with any fuel at all,
the loop performs exactly one submission and returns `login`'s boolean. -/
theorem login_eq_loginLoopAux (dashboardURL : String) (env : PortalEnv)
    (fuel : Nat) (hfuel : 1 ≤ fuel) :
    loginLoopAux dashboardURL (fun _ => env) fuel false 0 =
      some ((login dashboardURL env).1, 1) := by
  match fuel, hfuel with
  | f + 1, _ =>
    cases h : env.waitOutcome with
    | none => simp [loginLoopAux, login, h]
    | some url =>
        by_cases hu : url == dashboardURL <;>
          simp [loginLoopAux, login, h, hu]

theorem record_not_mem_login (dashboardURL : String) (env : PortalEnv) :
    Action.record ∉ (login dashboardURL env).2 := by
  obtain ⟨w⟩ := env
  cases w with
  | none => simp [login]
  | some url => by_cases hu : url == dashboardURL <;> simp [login, hu]

end TLC

/-- Claim C1: when the portal's post-submit wait ends with the browser on the
dashboard URL, `login` returns `True`; when the wait times out or the browser
lands on any other URL, `login` returns `False` and `main` never invokes
`recordAttendance`. -/
theorem claim_C1 (env : TLC.RunEnv) :
    (env.portal.waitOutcome = some env.dashboardURL →
      (TLC.login env.dashboardURL env.portal).1 = true) ∧
    ((env.portal.waitOutcome = none ∨
        (∃ u, env.portal.waitOutcome = some u ∧ u ≠ env.dashboardURL)) →
      (TLC.login env.dashboardURL env.portal).1 = false ∧
      TLC.Action.record ∉ TLC.mainTrace env) := by
  constructor
  · intro h
    simp [TLC.login, h]
  · intro h
    have hfalse : (TLC.login env.dashboardURL env.portal).1 = false := by
      rcases h with h | ⟨u, hu, hne⟩
      · simp [TLC.login, h]
      · simp [TLC.login, hu, hne]
    refine ⟨hfalse, ?_⟩
    simp only [TLC.mainTrace]
    by_cases h0 :
        ((TLC.loadAttendanceData env.workbook env.sheetName []).result == 0) = true
    · simp [h0]
    · simp only [Bool.not_eq_true] at h0
      simp [h0, hfalse, TLC.record_not_mem_login]

/-- Witness for C1: with the portal redirecting to the dashboard `login`
returns `True`; with the portal staying on the login page it returns `False`
and the run's trace contains no attendance-marking action. -/
theorem claim_C1_witness :
    (TLC.login TLC.envLoginOk.dashboardURL TLC.envLoginOk.portal).1 = true ∧
    (TLC.login TLC.envLoginStuck.dashboardURL TLC.envLoginStuck.portal).1 = false ∧
    TLC.Action.record ∉ TLC.mainTrace TLC.envLoginStuck := by
  have h1 := (claim_C1 TLC.envLoginOk).1 rfl
  have h2 := (claim_C1 TLC.envLoginStuck).2
    (Or.inr ⟨"https://www.traillifeconnect.com/login", rfl, by decide⟩)
  exact ⟨h1, h2.1, h2.2⟩

/-- Claim C6: when the first roster load returns count zero, `main` prints the
no-data error and stops: no browser session is created, no credentials are
submitted, and no attendance marking happens. -/
theorem claim_C6 (env : TLC.RunEnv)
    (h : (TLC.loadAttendanceData env.workbook env.sheetName []).result = 0) :
    TLC.mainTrace env = [TLC.Action.loadRoster, TLC.Action.printNoData] ∧
    TLC.Action.createSession ∉ TLC.mainTrace env ∧
    TLC.Action.submitCredentials ∉ TLC.mainTrace env ∧
    TLC.Action.record ∉ TLC.mainTrace env := by
  have htrace : TLC.mainTrace env = [TLC.Action.loadRoster, TLC.Action.printNoData] := by
    simp [TLC.mainTrace, h]
  refine ⟨htrace, ?_, ?_, ?_⟩ <;> rw [htrace] <;> simp

/-- Witness for C6 at a run whose workbook lacks the `Attendance` sheet, so
the roster load returns 0. -/
theorem claim_C6_witness :
    TLC.mainTrace TLC.envNoData = [TLC.Action.loadRoster, TLC.Action.printNoData] ∧
    TLC.Action.createSession ∉ TLC.mainTrace TLC.envNoData ∧
    TLC.Action.submitCredentials ∉ TLC.mainTrace TLC.envNoData ∧
    TLC.Action.record ∉ TLC.mainTrace TLC.envNoData :=
  claim_C6 TLC.envNoData (by decide)

/-- Claim C9: for every portal behaviour and any fuel at all, the
password-entry loop of `login` terminates after exactly one credential
submission — each iteration either reaches the dashboard (loop exits, `True`)
or returns `False`, so a failed attempt is never retried — and the returned
boolean is success exactly when the first submission's wait ended on the
dashboard URL. -/
theorem claim_C9 (dashboardURL : String) (envs : Nat → TLC.PortalEnv)
    (fuel : Nat) (hfuel : 1 ≤ fuel) :
    ∃ b, TLC.loginLoopAux dashboardURL envs fuel false 0 = some (b, 1) ∧
      (b = true ↔ (envs 0).waitOutcome = some dashboardURL) := by
  match fuel, hfuel with
  | f + 1, _ =>
    cases h : (envs 0).waitOutcome with
    | none =>
        exact ⟨false, by simp [TLC.loginLoopAux, h], by simp [h]⟩
    | some url =>
        by_cases hu : url == dashboardURL
        · refine ⟨true, by simp [TLC.loginLoopAux, h, hu], ?_⟩
          have : url = dashboardURL := by simpa using hu
          simp [h, this]
        · refine ⟨false, by simp [TLC.loginLoopAux, h, hu], ?_⟩
          have : ¬ url = dashboardURL := by simpa using hu
          simp [h, this]

/-- Witness for C9: a constant portal that redirects to the dashboard, fuel 1:
the loop stops after one submission with result `true`. -/
theorem claim_C9_witness :
    ∃ b, TLC.loginLoopAux TLC.dashW (fun _ => { waitOutcome := some TLC.dashW })
        1 false 0 = some (b, 1) ∧
      (b = true ↔
        ({ waitOutcome := some TLC.dashW } : TLC.PortalEnv).waitOutcome =
          some TLC.dashW) :=
  claim_C9 TLC.dashW (fun _ => { waitOutcome := some TLC.dashW }) 1 (by decide)

namespace TLC

theorem lookupKV_setKV_ne (kvs : List (String × String)) (k v k' : String)
    (hne : k' ≠ k) :
    lookupKV (setKV kvs k v) k' = lookupKV kvs k' := by
  have hkk : (k == k') = false := beq_eq_false_iff_ne.mpr (Ne.symm hne)
  induction kvs with
  | nil => simp [setKV, lookupKV, List.find?, hkk]
  | cons p rest ih =>
      by_cases hp : p.1 = k
      · have hpt : (p.1 == k) = true := beq_iff_eq.mpr hp
        have hp' : (p.1 == k') = false :=
          beq_eq_false_iff_ne.mpr (fun h => hne ((h ▸ hp) : k' = k))
        simp [setKV, lookupKV, hpt, hp', hkk]
      · have hpf : (p.1 == k) = false := beq_eq_false_iff_ne.mpr hp
        by_cases hps : p.1 = k'
        · have h1 : (p.1 == k') = true := beq_iff_eq.mpr hps
          simp [setKV, lookupKV, hpf, h1]
        · have h1 : (p.1 == k') = false := beq_eq_false_iff_ne.mpr hps
          simp only [lookupKV] at ih ⊢
          simp [setKV, hpf, h1, ih]

theorem find?_setSection_ne
    (l : List (String × List (String × String))) (s k v s' : String)
    (hne : s' ≠ s) :
    (setSection l s k v).find? (fun p => p.1 == s') =
      l.find? (fun p => p.1 == s') := by
  have hss : (s == s') = false := beq_eq_false_iff_ne.mpr (Ne.symm hne)
  induction l with
  | nil => simp [setSection, List.find?, hss]
  | cons p rest ih =>
      by_cases hp : p.1 = s
      · have hpt : (p.1 == s) = true := beq_iff_eq.mpr hp
        have hp' : (p.1 == s') = false :=
          beq_eq_false_iff_ne.mpr (fun h => hne ((h ▸ hp) : s' = s))
        simp [setSection, hpt, hp', hss]
      · have hpf : (p.1 == s) = false := beq_eq_false_iff_ne.mpr hp
        by_cases hps : p.1 = s'
        · have h1 : (p.1 == s') = true := beq_iff_eq.mpr hps
          simp [setSection, hpf, h1]
        · have h1 : (p.1 == s') = false := beq_eq_false_iff_ne.mpr hps
          simp [setSection, hpf, h1, ih]

theorem find?_setSection_self
    (l : List (String × List (String × String))) (s k v : String) :
    (((setSection l s k v).find? (fun p => p.1 == s)).map (fun p => p.2)).getD [] =
      setKV ((((l.find? (fun p => p.1 == s)).map (fun p => p.2)).getD [])) k v := by
  induction l with
  | nil => simp [setSection, List.find?, setKV]
  | cons p rest ih =>
      by_cases hp : p.1 = s
      · have hpt : (p.1 == s) = true := beq_iff_eq.mpr hp
        simp [setSection, hpt]
      · have hpf : (p.1 == s) = false := beq_eq_false_iff_ne.mpr hp
        simp [setSection, hpf, ih]

theorem defaults_ensureSection (cfg : Config) (s : String) :
    (ensureSection cfg s).defaults = cfg.defaults := by
  unfold ensureSection
  split <;> rfl

theorem defaults_setValue (cfg : Config) (s k v : String) :
    (setValue cfg s k v).defaults =
      (if s == "DEFAULT" then setKV cfg.defaults k v else cfg.defaults) := by
  unfold setValue
  split <;> simp_all

theorem ownPairs_ensureSection (cfg : Config) (s s' : String) :
    ownPairs (ensureSection cfg s) s' = ownPairs cfg s' := by
  unfold ensureSection
  split
  · rfl
  · next hcond =>
      simp only [Bool.or_eq_true, not_or] at hcond
      obtain ⟨hsd, hany⟩ := hcond
      unfold ownPairs
      by_cases hd : s' = "DEFAULT"
      · have hdt : (s' == "DEFAULT") = true := beq_iff_eq.mpr hd
        simp [hdt]
      · have hd' : (s' == "DEFAULT") = false := beq_eq_false_iff_ne.mpr hd
        simp only [hd', Bool.false_eq_true, if_false]
        rw [List.find?_append]
        by_cases hss : s' = s
        · have hnone : cfg.sections.find? (fun p => p.1 == s') = none := by
            rw [List.find?_eq_none]
            intro p hp
            have hn : p.1 ≠ s := by
              intro he
              exact hany (List.any_eq_true.mpr ⟨p, hp, beq_iff_eq.mpr he⟩)
            simp [beq_eq_false_iff_ne.mpr (hss ▸ hn)]
          have hst : (s == s') = true := beq_iff_eq.mpr hss.symm
          simp [hnone, List.find?, hst]
        · have hx : (s == s') = false :=
            beq_eq_false_iff_ne.mpr (fun h => hss h.symm)
          cases hf : cfg.sections.find? (fun p => p.1 == s') with
          | none => simp [List.find?, hx]
          | some q => simp

theorem ownPairs_setValue_ne (cfg : Config) (s k v s' : String)
    (hne : s' ≠ s) :
    ownPairs (setValue cfg s k v) s' = ownPairs cfg s' := by
  unfold setValue ownPairs
  by_cases hsd : s = "DEFAULT"
  · have hs'd : (s' == "DEFAULT") = false :=
      beq_eq_false_iff_ne.mpr (fun h => hne (h.trans hsd.symm))
    have hsdt : (s == "DEFAULT") = true := beq_iff_eq.mpr hsd
    simp [hsdt, hs'd]
  · have hsdf : (s == "DEFAULT") = false := beq_eq_false_iff_ne.mpr hsd
    by_cases hs'd : s' = "DEFAULT"
    · have ht : (s' == "DEFAULT") = true := beq_iff_eq.mpr hs'd
      simp [hsdf, ht]
    · have hf : (s' == "DEFAULT") = false := beq_eq_false_iff_ne.mpr hs'd
      simp [hsdf, hf, find?_setSection_ne cfg.sections s k v s' hne]

theorem ownPairs_setValue_self (cfg : Config) (s k v : String) :
    ownPairs (setValue cfg s k v) s = setKV (ownPairs cfg s) k v := by
  unfold setValue ownPairs
  by_cases hsd : s = "DEFAULT"
  · have hsdt : (s == "DEFAULT") = true := beq_iff_eq.mpr hsd
    simp [hsdt]
  · have hsdf : (s == "DEFAULT") = false := beq_eq_false_iff_ne.mpr hsd
    simp [hsdf, find?_setSection_self cfg.sections s k v]

theorem getValue_ensureSection (cfg : Config) (s s' k : String) :
    getValue (ensureSection cfg s) s' k = getValue cfg s' k := by
  unfold getValue
  rw [ownPairs_ensureSection, defaults_ensureSection]

theorem getValue_setValue_ne (cfg : Config) (s k v s' k' : String)
    (hne : k' ≠ k) :
    getValue (setValue cfg s k v) s' k' = getValue cfg s' k' := by
  have hdef : lookupKV (setValue cfg s k v).defaults k' = lookupKV cfg.defaults k' := by
    rw [defaults_setValue]
    split
    · exact lookupKV_setKV_ne _ _ _ _ hne
    · rfl
  have hown : lookupKV (ownPairs (setValue cfg s k v) s') k' =
      lookupKV (ownPairs cfg s') k' := by
    by_cases hss : s' = s
    · rw [hss, ownPairs_setValue_self]
      exact lookupKV_setKV_ne _ _ _ _ hne
    · rw [ownPairs_setValue_ne _ _ _ _ _ hss]
  unfold getValue
  rw [hdef, hown]

theorem own_none_of_getValue_none (cfg : Config) (s f : String)
    (h : getValue cfg s f = none) :
    lookupKV (ownPairs cfg s) f = none := by
  unfold getValue at h
  by_cases hsd : s = "DEFAULT"
  · have ht : (s == "DEFAULT") = true := beq_iff_eq.mpr hsd
    rw [ht] at h
    simp only [if_true] at h
    unfold ownPairs
    rw [ht]
    simpa using h
  · have hf : (s == "DEFAULT") = false := beq_eq_false_iff_ne.mpr hsd
    rw [hf] at h
    simp only [Bool.false_eq_true, if_false] at h
    cases hlk : lookupKV (ownPairs cfg s) f with
    | none => rfl
    | some v => rw [hlk] at h; simp at h

theorem setValue_preserves_own (cfg : Config) (s f val : String)
    (h : getValue cfg s f = none) (s' k v : String)
    (hlk : lookupKV (ownPairs cfg s') k = some v) :
    lookupKV (ownPairs (setValue cfg s f val) s') k = some v := by
  by_cases hss : s' = s
  · subst hss
    have hown := own_none_of_getValue_none cfg s' f h
    by_cases hkf : k = f
    · rw [hkf, hown] at hlk
      exact absurd hlk (by simp)
    · rw [ownPairs_setValue_self, lookupKV_setKV_ne _ _ _ _ hkf]
      exact hlk
  · rw [ownPairs_setValue_ne _ _ _ _ _ hss]
    exact hlk

theorem rci_prompts (inputs : String → String → Option String) (st : RCState)
    (sect f d : String) :
    (readConfigItem inputs st sect f d).1.prompts =
      st.prompts ++ (if hasKey st.config sect f then [] else [(sect, f)]) := by
  simp only [readConfigItem, getValue_ensureSection]
  cases h : getValue st.config sect f with
  | some v => simp [hasKey, h]
  | none => simp [hasKey, h]

theorem rci_changed (inputs : String → String → Option String) (st : RCState)
    (sect f d : String) :
    (readConfigItem inputs st sect f d).1.configChanged =
      (st.configChanged || !hasKey st.config sect f) := by
  simp only [readConfigItem, getValue_ensureSection]
  cases h : getValue st.config sect f with
  | some v => simp [hasKey, h]
  | none => simp [hasKey, h]

theorem rci_getValue_ne (inputs : String → String → Option String)
    (st : RCState) (sect f d s' k' : String) (hne : k' ≠ f) :
    getValue (readConfigItem inputs st sect f d).1.config s' k' =
      getValue st.config s' k' := by
  simp only [readConfigItem, getValue_ensureSection]
  cases h : getValue st.config sect f with
  | some v => simp [h, getValue_ensureSection]
  | none =>
      simp only [h]
      rw [getValue_setValue_ne _ _ _ _ _ _ hne, getValue_ensureSection]

theorem rci_hasKey_ne (inputs : String → String → Option String)
    (st : RCState) (sect f d s' k' : String) (hne : k' ≠ f) :
    hasKey (readConfigItem inputs st sect f d).1.config s' k' =
      hasKey st.config s' k' := by
  unfold hasKey
  rw [rci_getValue_ne inputs st sect f d s' k' hne]

theorem rci_preserves_own (inputs : String → String → Option String)
    (st : RCState) (sect f d s' k v : String)
    (hlk : lookupKV (ownPairs st.config s') k = some v) :
    lookupKV (ownPairs (readConfigItem inputs st sect f d).1.config s') k =
      some v := by
  simp only [readConfigItem, getValue_ensureSection]
  cases h : getValue st.config sect f with
  | some w =>
      simpa [ownPairs_ensureSection] using hlk
  | none =>
      simp only [h]
      have h' : getValue (ensureSection st.config sect) sect f = none := by
        rw [getValue_ensureSection]; exact h
      have hlk' : lookupKV (ownPairs (ensureSection st.config sect) s') k = some v := by
        rw [ownPairs_ensureSection]; exact hlk
      simpa using setValue_preserves_own (ensureSection st.config sect) sect f
        ((inputs sect f).getD d) h' s' k v hlk'

theorem readConfig_eq (inputs : String → String → Option String)
    (cfg0 : Config) :
    readConfig inputs cfg0 =
      { config := (rcStep5 inputs cfg0).1.config,
        fileWritten := (rcStep5 inputs cfg0).1.configChanged,
        prompts := (rcStep5 inputs cfg0).1.prompts,
        server := (rcStep1 inputs cfg0).2,
        browser := (rcStep2 inputs cfg0).2,
        sheetName := (rcStep3 inputs cfg0).2,
        email := (rcStep4 inputs cfg0).2,
        initial_wait_secs := (rcStep5 inputs cfg0).2 } := rfl

end TLC

/-- Claim C3: configuration resolution prompts exactly for the recognized keys
absent from the relevant section of the config file (through `configparser`'s
section view, whose lookups fall back to `DEFAULT`), in resolution order; the
file is rewritten exactly when at least one key was newly entered; and every
key/value pair stored in the file before resolution is stored unchanged
afterwards. -/
theorem claim_C3 (inputs : String → String → Option String) (cfg0 : TLC.Config) :
    ((TLC.readConfig inputs cfg0).prompts =
      (TLC.recognizedKeys (TLC.readConfig inputs cfg0).server).filter
        (fun p => !(TLC.hasKey cfg0 p.1 p.2))) ∧
    ((TLC.readConfig inputs cfg0).fileWritten = true ↔
      (TLC.readConfig inputs cfg0).prompts ≠ []) ∧
    (∀ s k v, TLC.lookupKV (TLC.ownPairs cfg0 s) k = some v →
      TLC.lookupKV (TLC.ownPairs (TLC.readConfig inputs cfg0).config s) k =
        some v) := by
  rw [TLC.readConfig_eq]
  dsimp only
  -- presence of each key, reduced to the initial file state
  have hb2 : TLC.hasKey (TLC.rcStep1 inputs cfg0).1.config "DEFAULT" "browser" =
      TLC.hasKey cfg0 "DEFAULT" "browser" :=
    TLC.rci_hasKey_ne _ _ _ _ _ _ _ (by decide)
  have hb3 : TLC.hasKey (TLC.rcStep2 inputs cfg0).1.config "DEFAULT" "sheetName" =
      TLC.hasKey cfg0 "DEFAULT" "sheetName" := by
    rw [TLC.rci_hasKey_ne _ _ _ _ _ _ _ (by decide)]
    exact TLC.rci_hasKey_ne _ _ _ _ _ _ _ (by decide)
  have hb4 : TLC.hasKey (TLC.rcStep3 inputs cfg0).1.config
      (TLC.rcStep1 inputs cfg0).2 "email" =
      TLC.hasKey cfg0 (TLC.rcStep1 inputs cfg0).2 "email" := by
    rw [TLC.rci_hasKey_ne _ _ _ _ _ _ _ (by decide),
      TLC.rci_hasKey_ne _ _ _ _ _ _ _ (by decide)]
    exact TLC.rci_hasKey_ne _ _ _ _ _ _ _ (by decide)
  have hb5 : TLC.hasKey (TLC.rcStep4 inputs cfg0).1.config
      (TLC.rcStep1 inputs cfg0).2 "initial_wait_secs" =
      TLC.hasKey cfg0 (TLC.rcStep1 inputs cfg0).2 "initial_wait_secs" := by
    rw [TLC.rci_hasKey_ne _ _ _ _ _ _ _ (by decide),
      TLC.rci_hasKey_ne _ _ _ _ _ _ _ (by decide),
      TLC.rci_hasKey_ne _ _ _ _ _ _ _ (by decide)]
    exact TLC.rci_hasKey_ne _ _ _ _ _ _ _ (by decide)
  -- the prompt trace, one step at a time
  have hp1 : (TLC.rcStep1 inputs cfg0).1.prompts =
      [] ++ (if TLC.hasKey cfg0 "DEFAULT" "server" then []
             else [("DEFAULT", "server")]) :=
    TLC.rci_prompts _ _ _ _ _
  have hp2 : (TLC.rcStep2 inputs cfg0).1.prompts =
      (TLC.rcStep1 inputs cfg0).1.prompts ++
        (if TLC.hasKey cfg0 "DEFAULT" "browser" then []
         else [("DEFAULT", "browser")]) := by
    rw [← hb2]; exact TLC.rci_prompts _ _ _ _ _
  have hp3 : (TLC.rcStep3 inputs cfg0).1.prompts =
      (TLC.rcStep2 inputs cfg0).1.prompts ++
        (if TLC.hasKey cfg0 "DEFAULT" "sheetName" then []
         else [("DEFAULT", "sheetName")]) := by
    rw [← hb3]; exact TLC.rci_prompts _ _ _ _ _
  have hp4 : (TLC.rcStep4 inputs cfg0).1.prompts =
      (TLC.rcStep3 inputs cfg0).1.prompts ++
        (if TLC.hasKey cfg0 (TLC.rcStep1 inputs cfg0).2 "email" then []
         else [((TLC.rcStep1 inputs cfg0).2, "email")]) := by
    rw [← hb4]; exact TLC.rci_prompts _ _ _ _ _
  have hp5 : (TLC.rcStep5 inputs cfg0).1.prompts =
      (TLC.rcStep4 inputs cfg0).1.prompts ++
        (if TLC.hasKey cfg0 (TLC.rcStep1 inputs cfg0).2 "initial_wait_secs" then []
         else [((TLC.rcStep1 inputs cfg0).2, "initial_wait_secs")]) := by
    rw [← hb5]; exact TLC.rci_prompts _ _ _ _ _
  -- the configChanged flag, one step at a time
  have hc1 : (TLC.rcStep1 inputs cfg0).1.configChanged =
      (false || !TLC.hasKey cfg0 "DEFAULT" "server") :=
    TLC.rci_changed _ _ _ _ _
  have hc2 : (TLC.rcStep2 inputs cfg0).1.configChanged =
      ((TLC.rcStep1 inputs cfg0).1.configChanged ||
        !TLC.hasKey cfg0 "DEFAULT" "browser") := by
    rw [← hb2]; exact TLC.rci_changed _ _ _ _ _
  have hc3 : (TLC.rcStep3 inputs cfg0).1.configChanged =
      ((TLC.rcStep2 inputs cfg0).1.configChanged ||
        !TLC.hasKey cfg0 "DEFAULT" "sheetName") := by
    rw [← hb3]; exact TLC.rci_changed _ _ _ _ _
  have hc4 : (TLC.rcStep4 inputs cfg0).1.configChanged =
      ((TLC.rcStep3 inputs cfg0).1.configChanged ||
        !TLC.hasKey cfg0 (TLC.rcStep1 inputs cfg0).2 "email") := by
    rw [← hb4]; exact TLC.rci_changed _ _ _ _ _
  have hc5 : (TLC.rcStep5 inputs cfg0).1.configChanged =
      ((TLC.rcStep4 inputs cfg0).1.configChanged ||
        !TLC.hasKey cfg0 (TLC.rcStep1 inputs cfg0).2 "initial_wait_secs") := by
    rw [← hb5]; exact TLC.rci_changed _ _ _ _ _
  refine ⟨?_, ?_, ?_⟩
  · rw [hp5, hp4, hp3, hp2, hp1]
    simp only [TLC.recognizedKeys, List.filter]
    cases hx1 : TLC.hasKey cfg0 "DEFAULT" "server" <;>
      cases hx2 : TLC.hasKey cfg0 "DEFAULT" "browser" <;>
      cases hx3 : TLC.hasKey cfg0 "DEFAULT" "sheetName" <;>
      cases hx4 : TLC.hasKey cfg0 (TLC.rcStep1 inputs cfg0).2 "email" <;>
      cases hx5 : TLC.hasKey cfg0 (TLC.rcStep1 inputs cfg0).2 "initial_wait_secs" <;>
      simp
  · rw [hc5, hc4, hc3, hc2, hc1, hp5, hp4, hp3, hp2, hp1]
    cases hx1 : TLC.hasKey cfg0 "DEFAULT" "server" <;>
      cases hx2 : TLC.hasKey cfg0 "DEFAULT" "browser" <;>
      cases hx3 : TLC.hasKey cfg0 "DEFAULT" "sheetName" <;>
      cases hx4 : TLC.hasKey cfg0 (TLC.rcStep1 inputs cfg0).2 "email" <;>
      cases hx5 : TLC.hasKey cfg0 (TLC.rcStep1 inputs cfg0).2 "initial_wait_secs" <;>
      simp
  · intro s k v hlk
    exact TLC.rci_preserves_own _ _ _ _ _ _ _ _
      (TLC.rci_preserves_own _ _ _ _ _ _ _ _
        (TLC.rci_preserves_own _ _ _ _ _ _ _ _
          (TLC.rci_preserves_own _ _ _ _ _ _ _ _
            (TLC.rci_preserves_own _ _ _ _ _ _ _ _ hlk))))

/-- Witness for C3 on a concrete file missing `sheetName`, `email` and
`initial_wait_secs`: the prompts are exactly the recognized keys absent from
the file, the file is rewritten (some key was newly entered), and the
pre-existing `server` pair keeps its value. -/
theorem claim_C3_witness :
    ((TLC.readConfig TLC.inputsW TLC.cfgW).prompts =
      (TLC.recognizedKeys (TLC.readConfig TLC.inputsW TLC.cfgW).server).filter
        (fun p => !(TLC.hasKey TLC.cfgW p.1 p.2))) ∧
    ((TLC.readConfig TLC.inputsW TLC.cfgW).fileWritten = true ↔
      (TLC.readConfig TLC.inputsW TLC.cfgW).prompts ≠ []) ∧
    TLC.lookupKV (TLC.ownPairs (TLC.readConfig TLC.inputsW TLC.cfgW).config
      "DEFAULT") "server" = some "www.traillifeconnect.com" := by
  have h := claim_C3 TLC.inputsW TLC.cfgW
  exact ⟨h.1, h.2.1,
    h.2.2 "DEFAULT" "server" "www.traillifeconnect.com" (by decide)⟩
